import Mathlib

/-!
Shallow embedding of the `owl` image library (pixel buffer `Image<BYTE>`,
color-space model, and the JPEG file bridge `ImageFile`) together with
proofs about its specified properties.

Machine integers: `unsigned int` arithmetic is modelled over `Nat` with an
explicit `% 2^32` wherever the C computation can wrap.  The byte-channel
instantiation `Image<BYTE>` (the one the claims are about) is embedded;
`sizeof(Channel) = sizeof(BYTE) = 1`.
-/

namespace owl

/-- 2^32, the modulus of `unsigned int` arithmetic. -/
def U32 : Nat := 4294967296

/-! ### Types.h -/

/-- `ColorSpace::Type` from Types.h. -/
inductive ColorSpaceType
  | UNKNOWN
  | GRAYSCALE
  | RGB
  | RGBA
deriving DecidableEq, Repr

namespace ColorSpace

/-- `ColorSpace::calculateNumberOfChannels` from Types.h:
RGB ↦ 3, RGBA ↦ 4, GRAYSCALE ↦ 1, default (UNKNOWN) ↦ 0. -/
def calculateNumberOfChannels : ColorSpaceType → Nat
  | .RGB => 3
  | .RGBA => 4
  | .GRAYSCALE => 1
  | .UNKNOWN => 0

end ColorSpace

/-! ### Byte buffers

The heap buffer behind `Channel* mData` is a `List Nat` of byte values;
`none` models the null pointer.  `memcpy(dst, src, src.length)` is
`memcpyList`: it overwrites a prefix of `dst` and never grows it (a C
`memcpy` past the end of the destination allocation is undefined
behaviour; the model clips at the allocated length). -/

/-- `memcpy(dst, src, n)` with `n = src.length`, clipped to `dst`'s
allocated length. -/
def memcpyList (dst src : List Nat) : List Nat :=
  src.take dst.length ++ dst.drop src.length

/-- Write the byte values `vs` into `buf` starting at byte offset `off`
(one `buf[off+i] = vs[i]` store per element; stores past the end of the
allocation are dropped, as `List.set` does). -/
def setBytes : List Nat → Nat → List Nat → List Nat
  | buf, _, [] => buf
  | buf, off, v :: vs => setBytes (buf.set off v) (off + 1) vs

/-- Read `k` bytes of `buf` starting at byte offset `off`
(out-of-range reads return 0). -/
def getBytes (buf : List Nat) (off k : Nat) : List Nat :=
  (List.range k).map fun j => buf.getD (off + j) 0

/-! ### Image.h, instantiated at `Channel = BYTE` -/

/-- The fields of `owl::Image<BYTE>`. -/
structure Image where
  mColorSpace : ColorSpaceType
  mBpp : Nat
  mWidth : Nat
  mHeight : Nat
  mRowSize : Nat
  mNumberOfChannels : Nat
  mData : Option (List Nat)
deriving DecidableEq, Repr

namespace Image

/-- `Image::calculateBpp`: `calculateNumberOfChannels(colorSpace) *
sizeof(Channel) * 8` with `sizeof(BYTE) = 1`. -/
def calculateBpp (colorSpace : ColorSpaceType) : Nat :=
  ColorSpace.calculateNumberOfChannels colorSpace * 1 * 8

/-- `Image::calculateRowSize`: `((width * bpp + 31) & ~31) >> 3` in
32-bit unsigned arithmetic (`~31 = 0xFFFFFFE0 = 4294967264`). -/
def calculateRowSize (width bpp : Nat) : Nat :=
  (((width * bpp + 31) % U32) &&& 4294967264) >>> 3

/-- The default constructor `Image()`: color space RGB, everything else
zero / null. -/
def emptyImage : Image :=
  { mColorSpace := .RGB
    mBpp := 0
    mWidth := 0
    mHeight := 0
    mRowSize := 0
    mNumberOfChannels := 0
    mData := none }

/-- `Image::destroy()`: resets every field exactly as the source does
(`mColorSpace = RGB`, numeric fields 0, buffer freed and nulled). -/
def destroy (_img : Image) : Image :=
  { mColorSpace := .RGB
    mBpp := 0
    mWidth := 0
    mHeight := 0
    mRowSize := 0
    mNumberOfChannels := 0
    mData := none }

/-- `Image::create(width, height, colorSpace, data)`.  It first calls
`destroy()` (so nothing of the old image survives — the functional model
therefore ignores `_img`), recomputes the derived fields, allocates
`new BYTE[mRowSize * mHeight]` (an `unsigned int` product, hence `% 2^32`;
fresh heap contents are indeterminate in C++ and modelled as zeros), and,
when `data` is supplied, `memcpy`s `mRowSize * mHeight` bytes from it. -/
def create (_img : Image) (width height : Nat) (colorSpace : ColorSpaceType)
    (data : Option (List Nat)) : Image :=
  let bpp := calculateBpp colorSpace
  let rowSize := calculateRowSize width bpp
  let n := (rowSize * height) % U32
  let fresh := List.replicate n 0
  let buf := match data with
    | none => fresh
    | some d => memcpyList fresh d
  { mColorSpace := colorSpace
    mBpp := bpp
    mWidth := width
    mHeight := height
    mRowSize := rowSize
    mNumberOfChannels := ColorSpace.calculateNumberOfChannels colorSpace
    mData := some buf }

/-- The four-argument constructor `Image(width, height, colorSpace, data)`
sets exactly the fields `create` sets (same formulas, same `memcpy`). -/
def paramCtor (width height : Nat) (colorSpace : ColorSpaceType)
    (data : Option (List Nat)) : Image :=
  create emptyImage width height colorSpace data

/-- The copy constructor `Image(const Image&)`: delegates to the
four-argument constructor with the source's width, height, color space
and data pointer. -/
def copyCtor (image : Image) : Image :=
  paramCtor image.mWidth image.mHeight image.mColorSpace image.mData

/-- `Image::getWidth`. -/
def getWidth (img : Image) : Nat := img.mWidth

/-- `Image::getHeight`. -/
def getHeight (img : Image) : Nat := img.mHeight

/-- `Image::getRowSize`. -/
def getRowSize (img : Image) : Nat := img.mRowSize

/-- `Image::getColorSpace`. -/
def getColorSpace (img : Image) : ColorSpaceType := img.mColorSpace

/-- `Image::getNumberOfChannels`. -/
def getNumberOfChannels (img : Image) : Nat := img.mNumberOfChannels

/-- `Image::getData` (the raw buffer pointer; `none` = null). -/
def getData (img : Image) : Option (List Nat) := img.mData

/-- Number of elements the image's heap allocation holds
(0 for the null pointer). -/
def allocatedLength (img : Image) : Nat :=
  match img.mData with
  | none => 0
  | some b => b.length

/-- `Image::operator=`: copies all layout fields from `image` first, then
compares `sourceSize = image.mRowSize * image.mHeight` with
`destSize = mRowSize * mHeight` — both computed *after* the field copy —
reallocates only when they differ, and finally
`memcpy(mData, image.mData, sourceSize)` (reads past the source
allocation modelled as zeros, writes clipped at the destination
allocation, `memcpy` into a null `mData` modelled as leaving it null). -/
def assign (dest image : Image) : Image :=
  let d : Image :=
    { dest with
      mWidth := image.mWidth
      mHeight := image.mHeight
      mRowSize := image.mRowSize
      mNumberOfChannels := image.mNumberOfChannels
      mColorSpace := image.mColorSpace
      mBpp := image.mBpp }
  let sourceSize := (image.mRowSize * image.mHeight) % U32
  let destSize := (d.mRowSize * d.mHeight) % U32
  let d2 : Image :=
    if sourceSize ≠ destSize then
      { d with mData := some (List.replicate sourceSize 0) }
    else d
  let srcBytes :=
    (image.mData.getD []).take sourceSize ++
      List.replicate (sourceSize - (image.mData.getD []).length) 0
  { d2 with mData := d2.mData.map fun b => memcpyList b srcBytes }

/-- The pointer offset of `Image::operator()(row, column)`:
`row * mRowSize + column * mNumberOfChannels` (in elements = bytes for
`BYTE`). -/
def pixelIndex (img : Image) (row column : Nat) : Nat :=
  row * img.mRowSize + column * img.mNumberOfChannels

/-- Reading the `mNumberOfChannels` channel values reachable through
`Image::operator()(row, column)`. -/
def readPixel (img : Image) (row column : Nat) : List Nat :=
  getBytes (img.mData.getD []) (img.pixelIndex row column) img.mNumberOfChannels

/-- Writing channel values through `Image::operator()(row, column)`
(one byte store per value, starting at the accessor's pointer). -/
def writePixel (img : Image) (row column : Nat) (vals : List Nat) : Image :=
  { img with
    mData := img.mData.map fun b => setBytes b (img.pixelIndex row column) vals }

end Image

/-! ### ImageFile.h / the libjpeg bridge

`ImageFile::loadJPEG` / `saveJPEG` perform I/O and drive libjpeg.  The
embedding makes the environment explicit (does `fopen` succeed, what does
the stream's header say, which scanlines does the decoder emit) and
records the resource-relevant calls the function makes as a trace of
events, in program order.  The returned `Bool` is the C function's return
value. -/

/-- Resource / I/O events of a `loadJPEG` / `saveJPEG` run, in program
order. -/
inductive Ev
  /-- `fopen(path, "rb")` succeeded: a readable file handle is held. -/
  | fopenRead
  /-- `fopen(path, "wb")` succeeded: the file is created or truncated
  and a writable handle is held. -/
  | fopenWrite
  /-- `fclose(file)`. -/
  | fclose
  /-- `jpeg_create_decompress` / `jpeg_create_compress`: a codec context
  now exists. -/
  | codecCreate
  /-- `jpeg_destroy_decompress` / `jpeg_destroy_compress`. -/
  | codecDestroy
  /-- `jpeg_set_quality(&cinfo, q, TRUE)`. -/
  | setQuality (q : Nat)
  /-- One scanline transferred (`jpeg_read_scanlines` /
  `jpeg_write_scanlines`). -/
  | scanline
deriving DecidableEq, Repr

/-- Number of successful `fopen` calls in a trace. -/
def opens (t : List Ev) : Nat := t.count .fopenRead + t.count .fopenWrite

/-- Number of `fclose` calls in a trace. -/
def closes (t : List Ev) : Nat := t.count .fclose

/-- Number of codec-context creations in a trace. -/
def codecCreates (t : List Ev) : Nat := t.count .codecCreate

/-- Number of codec-context destructions in a trace. -/
def codecDestroys (t : List Ev) : Nat := t.count .codecDestroy

/-- Every acquired resource was released when the function returned. -/
def balanced (t : List Ev) : Prop :=
  opens t = closes t ∧ codecCreates t = codecDestroys t

instance (t : List Ev) : Decidable (balanced t) := by
  unfold balanced; infer_instance

/-- The libjpeg `J_COLOR_SPACE` values `loadJPEG`'s switch looks at;
`JCS_OTHER` stands for every value with no case label (YCbCr, CMYK,
YCCK, BGR, BGRA, ABGR, ARGB, ...). -/
inductive JColorSpace
  | JCS_GRAYSCALE
  | JCS_RGB
  | JCS_EXT_RGB
  | JCS_EXT_RGBA
  | JCS_OTHER
deriving DecidableEq, Repr

/-- What the environment supplies to one `loadJPEG` call: whether
`fopen(path, "rb")` succeeds and, if so, what the decoder reports
(header color space, output dimensions) and the decoded scanlines it
emits. -/
structure JpegStream where
  canOpen : Bool
  outColorSpace : JColorSpace
  outputWidth : Nat
  outputHeight : Nat
  scanlines : List (List Nat)
deriving Repr

/-- What the environment supplies to one `saveJPEG` call: whether
`fopen(path, "wb")` succeeds. -/
structure WriteEnv where
  canOpen : Bool
deriving Repr

namespace ImageFile

/-- `ImageFile::Format`. -/
inductive Format
  | UNKNOWN
  | JPEG
deriving DecidableEq, Repr

/-- `ImageFile::checkFileExtension`: `UNKNOWN` for the empty path,
`JPEG` for every non-empty path (no suffix is inspected). -/
def checkFileExtension (path : String) : Format :=
  if path = "" then .UNKNOWN else .JPEG

/-- The mapping performed by `loadJPEG`'s switch on
`cInfo.out_color_space`; `none` is the `default:` branch. -/
def mapColorSpace : JColorSpace → Option ColorSpaceType
  | .JCS_GRAYSCALE => some .GRAYSCALE
  | .JCS_RGB => some .RGB
  | .JCS_EXT_RGB => some .RGB
  | .JCS_EXT_RGBA => some .RGBA
  | .JCS_OTHER => none

/-- The scanline loop of `loadJPEG`: each `jpeg_read_scanlines` call
writes one decoded row at the pointer `image(row++, 0)`. -/
def readRows (img : Image) : Nat → List (List Nat) → Image
  | _, [] => img
  | row, s :: rest =>
      readRows
        { img with
          mData := img.mData.map fun b => setBytes b (img.pixelIndex row 0) s }
        (row + 1) rest

/-- `ImageFile::loadJPEG`.  `fopen` failure returns false before anything
is acquired.  Otherwise the decompress context is created, the header is
read, and the switch on the stream's color space either rejects it
(finish, destroy, fclose, return false — `image` untouched) or
`image.create`s the buffer and streams the scanlines into it before
finishing, destroying and closing. -/
def loadJPEG (_path : String) (image : Image) (env : JpegStream) :
    Bool × Image × List Ev :=
  if env.canOpen then
    match mapColorSpace env.outColorSpace with
    | none =>
        (false, image, [.fopenRead, .codecCreate, .codecDestroy, .fclose])
    | some colorSpace =>
        let img1 := image.create env.outputWidth env.outputHeight colorSpace none
        let img2 := readRows img1 0 env.scanlines
        (true, img2,
          [.fopenRead, .codecCreate] ++
            List.replicate env.scanlines.length .scanline ++
            [.codecDestroy, .fclose])
  else (false, image, [])

/-- `ImageFile::saveJPEG`.  `fopen(path, "wb")` happens first (creating
or truncating the file when it succeeds); then `jpeg_create_compress`;
then the switch on the image's color space — whose `default:` branch
(an `UNKNOWN` color space) returns false *without* destroying the codec
context or closing the file.  On the supported color spaces the encoder
is configured (`jpeg_set_quality` with the given quality), one scanline
per row is written, and the context and file are released. -/
def saveJPEG (_path : String) (image : Image) (quality : Nat)
    (env : WriteEnv) : Bool × List Ev :=
  if env.canOpen then
    match image.getColorSpace with
    | .UNKNOWN => (false, [.fopenWrite, .codecCreate])
    | _ =>
        (true,
          [.fopenWrite, .codecCreate, .setQuality quality] ++
            List.replicate image.getHeight .scanline ++
            [.codecDestroy, .fclose])
  else (false, [])

/-- `ImageFile::load`: dispatch on `checkFileExtension`; only the JPEG
binding exists, every other format returns false without touching
anything. -/
def load (path : String) (image : Image) (env : JpegStream) :
    Bool × Image × List Ev :=
  match checkFileExtension path with
  | .JPEG => loadJPEG path image env
  | .UNKNOWN => (false, image, [])

/-- `ImageFile::save`: dispatch on `checkFileExtension`; the JPEG branch
calls `saveJPEG(path, image, 100)`. -/
def save (path : String) (image : Image) (env : WriteEnv) :
    Bool × List Ev :=
  match checkFileExtension path with
  | .JPEG => saveJPEG path image 100 env
  | .UNKNOWN => (false, [])

end ImageFile

/-! ### Byte-buffer lemmas -/

theorem length_memcpyList (dst src : List Nat) :
    (memcpyList dst src).length = dst.length := by
  simp only [memcpyList, List.length_append, List.length_take, List.length_drop]
  omega

theorem setBytes_length (vs buf : List Nat) (off : Nat) :
    (setBytes buf off vs).length = buf.length := by
  induction vs generalizing buf off with
  | nil => rfl
  | cons v vs ih => simp only [setBytes, ih, List.length_set]

theorem getD_set (l : List Nat) (i j v : Nat) :
    (l.set i v).getD j 0 = if i = j ∧ i < l.length then v else l.getD j 0 := by
  induction l generalizing i j with
  | nil => simp
  | cons x xs ih =>
    cases i with
    | zero =>
      cases j with
      | zero => simp
      | succ j => simp
    | succ i =>
      cases j with
      | zero => simp
      | succ j =>
        simp only [List.set_cons_succ, List.getD_cons_succ, List.length_cons]
        rw [ih]
        by_cases h : i = j ∧ i < xs.length
        · rw [if_pos h, if_pos (by omega)]
        · rw [if_neg h, if_neg (by omega)]

theorem getD_setBytes (vs buf : List Nat) (off i : Nat) :
    (setBytes buf off vs).getD i 0 =
      if off ≤ i ∧ i < off + vs.length ∧ i < buf.length then vs.getD (i - off) 0
      else buf.getD i 0 := by
  induction vs generalizing buf off with
  | nil =>
    simp only [setBytes, List.length_nil, Nat.add_zero]
    rw [if_neg (by omega)]
  | cons v vs ih =>
    simp only [setBytes, List.length_cons]
    rw [ih, List.length_set, getD_set]
    rcases Nat.lt_trichotomy i off with h | h | h
    · rw [if_neg (by omega), if_neg (by omega), if_neg (by omega)]
    · subst h
      rw [if_neg (by omega)]
      by_cases hb : i < buf.length
      · rw [if_pos ⟨rfl, hb⟩, if_pos ⟨Nat.le_refl i, by omega, hb⟩,
          Nat.sub_self, List.getD_cons_zero]
      · rw [if_neg (by omega), if_neg (by omega)]
    · by_cases hc : i < off + 1 + vs.length ∧ i < buf.length
      · rw [if_pos (by omega), if_pos (by omega)]
        have hs : i - off = (i - (off + 1)) + 1 := by omega
        rw [hs, List.getD_cons_succ]
      · rw [if_neg (by omega), if_neg (by omega), if_neg (by omega)]

theorem getBytes_length (buf : List Nat) (off k : Nat) :
    (getBytes buf off k).length = k := by
  simp [getBytes]

theorem getBytes_setBytes_self (buf vs : List Nat) (off : Nat)
    (h : off + vs.length ≤ buf.length) :
    getBytes (setBytes buf off vs) off vs.length = vs := by
  apply List.ext_getElem
  · simp [getBytes]
  · intro j h1 h2
    have hj : j < vs.length := by simpa [getBytes] using h1
    simp only [getBytes, List.getElem_map, List.getElem_range]
    rw [getD_setBytes, if_pos ⟨by omega, by omega, by omega⟩,
      Nat.add_sub_cancel_left, List.getD_eq_getElem vs 0 hj]

theorem getBytes_setBytes_disjoint (buf vs : List Nat) (off off' k : Nat)
    (h : off' + k ≤ off ∨ off + vs.length ≤ off') :
    getBytes (setBytes buf off vs) off' k = getBytes buf off' k := by
  apply List.ext_getElem
  · simp [getBytes]
  · intro j h1 h2
    have hj : j < k := by simpa [getBytes] using h1
    simp only [getBytes, List.getElem_map, List.getElem_range]
    rw [getD_setBytes, if_neg (by rcases h with h | h <;> omega)]

/-! ### Row-size arithmetic -/

/-- Masking a 32-bit value with `~31 = 0xFFFFFFE0` clears its five low
bits: it rounds down to a multiple of 32. -/
theorem and_mask32 (y : Nat) (hy : y < 4294967296) :
    y &&& 4294967264 = 32 * (y / 32) := by
  have hrw : 32 * (y / 32) = (y >>> 5) <<< 5 := by
    rw [Nat.shiftLeft_eq, Nat.shiftRight_eq_div_pow]
    have h32 : (2 : Nat) ^ 5 = 32 := by norm_num
    rw [h32, Nat.mul_comm]
  rw [hrw]
  apply Nat.eq_of_testBit_eq
  intro i
  rw [Nat.testBit_land, Nat.testBit_shiftLeft, Nat.testBit_shiftRight]
  rcases Nat.lt_or_ge i 5 with h5 | h5
  · have hnot : ¬(i ≥ 5) := by omega
    have hm : Nat.testBit 4294967264 i = false := by
      interval_cases i <;> decide
    simp [hm, hnot]
  · rcases Nat.lt_or_ge i 32 with h32 | h32
    · have hm : Nat.testBit 4294967264 i = true := by
        have hsplit : (4294967264 : Nat) = (2 ^ 27 - 1) <<< 5 := by
          rw [Nat.shiftLeft_eq]
          norm_num
        rw [hsplit, Nat.testBit_shiftLeft, Nat.testBit_two_pow_sub_one]
        have d1 : decide (i ≥ 5) = true := by simp [h5]
        have d2 : decide (i - 5 < 27) = true := by simp; omega
        rw [d1, d2, Bool.true_and]
      have h55 : 5 + (i - 5) = i := by omega
      simp [hm, h5, h55, Bool.and_comm]
    · have hyf : Nat.testBit y i = false := by
        apply Nat.testBit_eq_false_of_lt
        calc y < 4294967296 := hy
          _ = 2 ^ 32 := by norm_num
          _ ≤ 2 ^ i := Nat.pow_le_pow_right (by norm_num) h32
      have hm : Nat.testBit 4294967264 i = false := by
        apply Nat.testBit_eq_false_of_lt
        calc (4294967264 : Nat) < 2 ^ 32 := by norm_num
          _ ≤ 2 ^ i := Nat.pow_le_pow_right (by norm_num) h32
      have h55 : 5 + (i - 5) = i := by omega
      simp [hyf, hm, h55]

/-- Under no 32-bit overflow, `calculateRowSize` is the padded-row
formula `4 * ⌈width * bpp / 32⌉` with `bpp = k * 8`. -/
theorem calculateRowSize_eq (w k : Nat) (h32 : w * k * 8 + 31 < 4294967296) :
    Image.calculateRowSize w (k * 8) = 4 * ((w * k * 8 + 31) / 32) := by
  unfold Image.calculateRowSize U32
  have hassoc : w * (k * 8) = w * k * 8 := (Nat.mul_assoc w k 8).symm
  rw [hassoc, Nat.mod_eq_of_lt h32, and_mask32 _ h32,
    Nat.shiftRight_eq_div_pow]
  have h8 : (2 : Nat) ^ 3 = 8 := by norm_num
  have hmul : 32 * ((w * k * 8 + 31) / 32) = 8 * (4 * ((w * k * 8 + 31) / 32)) := by
    ring
  rw [h8, hmul, Nat.mul_div_cancel_left _ (by norm_num : (0:Nat) < 8)]

/-- A padded row is at least as long as its `width * channels` data
bytes. -/
theorem le_calculateRowSize (w k : Nat) (h32 : w * k * 8 + 31 < 4294967296) :
    w * k ≤ Image.calculateRowSize w (k * 8) := by
  rw [calculateRowSize_eq w k h32]
  have hdm := Nat.div_add_mod (w * k * 8 + 31) 32
  have hlt : (w * k * 8 + 31) % 32 < 32 := Nat.mod_lt _ (by norm_num)
  omega

/-- The byte ranges of two distinct valid pixels never overlap: rows are
separated by the stride, pixels within a row by the channel count. -/
theorem pixel_ranges_disjoint (S k w r c r' c' : Nat)
    (hwk : w * k ≤ S) (hc : c < w) (hc' : c' < w)
    (hne : ¬(r' = r ∧ c' = c)) :
    r' * S + c' * k + k ≤ r * S + c * k ∨
      r * S + c * k + k ≤ r' * S + c' * k := by
  have key : ∀ a b u v : Nat, a < b → u < w → v < w →
      a * S + u * k + k ≤ b * S + v * k := by
    intro a b u v hab hu hv
    calc a * S + u * k + k = a * S + (u + 1) * k := by ring
      _ ≤ a * S + w * k := by
          have : (u + 1) * k ≤ w * k := Nat.mul_le_mul_right k (by omega)
          omega
      _ ≤ a * S + S := by omega
      _ = (a + 1) * S := by ring
      _ ≤ b * S := Nat.mul_le_mul_right S (by omega)
      _ ≤ b * S + v * k := Nat.le_add_right _ _
  rcases Nat.lt_trichotomy r r' with h1 | h1 | h1
  · right; exact key r r' c c' h1 hc hc'
  · subst h1
    have hcc : c' ≠ c := fun hcc => hne ⟨rfl, hcc⟩
    rcases Nat.lt_trichotomy c c' with h2 | h2 | h2
    · right
      have : (c + 1) * k ≤ c' * k := Nat.mul_le_mul_right k (by omega)
      calc r * S + c * k + k = r * S + (c + 1) * k := by ring
        _ ≤ r * S + c' * k := by omega
    · exact absurd h2.symm hcc
    · left
      have : (c' + 1) * k ≤ c * k := Nat.mul_le_mul_right k (by omega)
      calc r * S + c' * k + k = r * S + (c' + 1) * k := by ring
        _ ≤ r * S + c * k := by omega
  · left; exact key r' r c' c h1 hc' hc

/-! ### Pixel-accessor lemmas -/

/-- Writing a pixel's channels and reading them back through the same
accessor returns the written values, provided the write stays inside the
allocation. -/
theorem readPixel_writePixel_self (img : Image) (buf : List Nat)
    (r c : Nat) (vals : List Nat)
    (hdata : img.mData = some buf)
    (hlen : vals.length = img.mNumberOfChannels)
    (hin : img.pixelIndex r c + vals.length ≤ buf.length) :
    (img.writePixel r c vals).readPixel r c = vals := by
  unfold Image.writePixel Image.readPixel
  rw [hdata]
  show getBytes (setBytes buf (img.pixelIndex r c) vals)
    (img.pixelIndex r c) img.mNumberOfChannels = vals
  rw [← hlen]
  exact getBytes_setBytes_self buf vals _ hin

/-- A pixel write never changes the bytes another accessor position
reads, provided the two byte ranges are disjoint. -/
theorem readPixel_writePixel_frame (img : Image) (buf : List Nat)
    (r c r' c' : Nat) (vals : List Nat)
    (hdata : img.mData = some buf)
    (hdisj : img.pixelIndex r' c' + img.mNumberOfChannels ≤ img.pixelIndex r c ∨
      img.pixelIndex r c + vals.length ≤ img.pixelIndex r' c') :
    (img.writePixel r c vals).readPixel r' c' = img.readPixel r' c' := by
  unfold Image.writePixel Image.readPixel
  rw [hdata]
  show getBytes (setBytes buf (img.pixelIndex r c) vals)
      (img.pixelIndex r' c') img.mNumberOfChannels =
    getBytes buf (img.pixelIndex r' c') img.mNumberOfChannels
  exact getBytes_setBytes_disjoint buf vals _ _ _ hdisj

/-- The decode adapter `loadJPEG` does pair every acquisition with a
release: on every path its trace is balanced. -/
theorem loadJPEG_balanced (path : String) (image : Image) (env : JpegStream) :
    balanced (ImageFile.loadJPEG path image env).2.2 := by
  rcases env with ⟨co, ocs, ow, oh, sc⟩
  unfold ImageFile.loadJPEG
  cases co
  · simp [balanced, opens, closes, codecCreates, codecDestroys]
  · cases hmap : ImageFile.mapColorSpace ocs <;>
      simp [balanced, opens, closes, codecCreates, codecDestroys, hmap,
        List.count_append, List.count_replicate, List.count_cons]

/-! ### Claim theorems -/

/-- Claim C1 (code bug exhibit): the encode adapter `saveJPEG`, called
with an openable path and an image whose color space is `UNKNOWN`,
returns false after `fopen(path, "wb")` and `jpeg_create_compress` but
before any `fclose` or `jpeg_destroy_compress`: the file handle and the
codec context both leak, contradicting the specified
release-on-every-exit-path discipline. -/
theorem saveJPEG_unknown_colorspace_leaks_handle_and_codec :
    (ImageFile.saveJPEG "out.jpg" (Image.emptyImage.create 1 1 .UNKNOWN none)
        100 ⟨true⟩).1 = false ∧
    ¬ balanced (ImageFile.saveJPEG "out.jpg"
        (Image.emptyImage.create 1 1 .UNKNOWN none) 100 ⟨true⟩).2 ∧
    opens (ImageFile.saveJPEG "out.jpg"
        (Image.emptyImage.create 1 1 .UNKNOWN none) 100 ⟨true⟩).2 = 1 ∧
    closes (ImageFile.saveJPEG "out.jpg"
        (Image.emptyImage.create 1 1 .UNKNOWN none) 100 ⟨true⟩).2 = 0 ∧
    codecCreates (ImageFile.saveJPEG "out.jpg"
        (Image.emptyImage.create 1 1 .UNKNOWN none) 100 ⟨true⟩).2 = 1 ∧
    codecDestroys (ImageFile.saveJPEG "out.jpg"
        (Image.emptyImage.create 1 1 .UNKNOWN none) 100 ⟨true⟩).2 = 0 := by
  decide

/-- Claim C2 (code bug exhibit): assigning a 2x2 RGB image (stride 8,
so `stride*height = 16`) to a default-constructed empty image leaves the
destination's allocation at length 0 (its data pointer still null) while
its `stride*height` is now 16 — `operator=` computes `destSize` only
after overwriting `mRowSize`/`mHeight` with the source's values, so its
reallocation branch can never fire and the `data length = stride*height`
invariant breaks. -/
theorem assign_violates_allocation_invariant :
    (Image.assign Image.emptyImage
        (Image.emptyImage.create 2 2 .RGB none)).mRowSize *
      (Image.assign Image.emptyImage
        (Image.emptyImage.create 2 2 .RGB none)).mHeight = 16 ∧
    Image.allocatedLength (Image.assign Image.emptyImage
        (Image.emptyImage.create 2 2 .RGB none)) = 0 ∧
    (Image.assign Image.emptyImage
        (Image.emptyImage.create 2 2 .RGB none)).mData = none := by
  decide

/-- Claim C3 (counterexample): `save` on a non-empty, openable path with
an `UNKNOWN`-color-space buffer does return false, but it is false that
no file is created or truncated: `saveJPEG` calls `fopen(path, "wb")` —
which creates or truncates the file — before it inspects the color
space, and the successful open is in the call's trace. -/
theorem save_unknown_truncates_file :
    (ImageFile.save "photo.png" (Image.emptyImage.create 1 1 .UNKNOWN none)
        ⟨true⟩).1 = false ∧
    Ev.fopenWrite ∈ (ImageFile.save "photo.png"
        (Image.emptyImage.create 1 1 .UNKNOWN none) ⟨true⟩).2 := by
  decide

/-- Claim C3 (amended): for every buffer whose color space is `UNKNOWN`,
`save` returns false and writes no image data (no scanline is ever
transferred); however the file is created/truncated exactly when the
path is non-empty and can be opened for writing. -/
theorem save_unknown_returns_false_writes_no_pixels
    (path : String) (img : Image) (env : WriteEnv)
    (hcs : img.getColorSpace = ColorSpaceType.UNKNOWN) :
    (ImageFile.save path img env).1 = false ∧
    Ev.scanline ∉ (ImageFile.save path img env).2 ∧
    (Ev.fopenWrite ∈ (ImageFile.save path img env).2 ↔
      (path ≠ "" ∧ env.canOpen = true)) := by
  rcases env with ⟨co⟩
  by_cases hp : path = "" <;> cases co <;>
    simp [ImageFile.save, ImageFile.checkFileExtension, ImageFile.saveJPEG,
      hp, hcs]

/-- Witness for the amended C3 at a concrete input. -/
theorem save_unknown_returns_false_writes_no_pixels_witness :
    (Image.emptyImage.create 1 1 .UNKNOWN none).getColorSpace =
      ColorSpaceType.UNKNOWN ∧
    (ImageFile.save "a.jpg" (Image.emptyImage.create 1 1 .UNKNOWN none)
        ⟨true⟩).1 = false :=
  ⟨by decide,
   (save_unknown_returns_false_writes_no_pixels "a.jpg"
      (Image.emptyImage.create 1 1 .UNKNOWN none) ⟨true⟩ (by decide)).1⟩

/-- Claim C4 (code bug exhibit): assigning a 2x2 RGB source (16 bytes of
pixel data) over a 1x1 grayscale destination (4 bytes allocated) does
not reallocate even though the allocated sizes differ — the guard
compares sizes computed after the destination's fields were already
overwritten — so the destination keeps its 4-byte allocation and ends up
with only the first 4 bytes of the source: not an independent buffer
with identical contents. -/
theorem assign_never_reallocates_and_truncates_copy :
    Image.allocatedLength (Image.emptyImage.create 1 1 .GRAYSCALE none) = 4 ∧
    (Image.emptyImage.create 2 2 .RGB
        (some [1, 2, 3, 4, 5, 6, 7, 8, 9, 10, 11, 12, 13, 14, 15, 16])).mRowSize *
      (Image.emptyImage.create 2 2 .RGB
        (some [1, 2, 3, 4, 5, 6, 7, 8, 9, 10, 11, 12, 13, 14, 15, 16])).mHeight = 16 ∧
    Image.allocatedLength
      (Image.assign (Image.emptyImage.create 1 1 .GRAYSCALE none)
        (Image.emptyImage.create 2 2 .RGB
          (some [1, 2, 3, 4, 5, 6, 7, 8, 9, 10, 11, 12, 13, 14, 15, 16]))) = 4 ∧
    (Image.assign (Image.emptyImage.create 1 1 .GRAYSCALE none)
        (Image.emptyImage.create 2 2 .RGB
          (some [1, 2, 3, 4, 5, 6, 7, 8, 9, 10, 11, 12, 13, 14, 15, 16]))).mData =
      some [1, 2, 3, 4] := by
  decide

/-- Claim C5 (counterexample): a default-constructed `Image` does not
have color space `Unknown`: the constructor initializes `mColorSpace`
to `RGB`. -/
theorem default_image_colorSpace_ne_unknown :
    Image.emptyImage.getColorSpace = ColorSpaceType.RGB ∧
    Image.emptyImage.getColorSpace ≠ ColorSpaceType.UNKNOWN := by
  decide

/-- Claim C5 (amended): a default-constructed `Image` is in the empty
state — width 0, height 0, color space `RGB`, stride 0, zero channels,
no data buffer — and `destroy()` resets every image to exactly that same
state; `destroy()` is idempotent. -/
theorem default_empty_state_and_destroy_idempotent (img : Image) :
    Image.emptyImage.getWidth = 0 ∧ Image.emptyImage.getHeight = 0 ∧
    Image.emptyImage.getColorSpace = ColorSpaceType.RGB ∧
    Image.emptyImage.getRowSize = 0 ∧
    Image.emptyImage.getNumberOfChannels = 0 ∧
    Image.emptyImage.getData = none ∧
    img.destroy = Image.emptyImage ∧
    img.destroy.destroy = img.destroy :=
  ⟨rfl, rfl, rfl, rfl, rfl, rfl, rfl, rfl⟩

/-- Claim C6: for a buffer created with a supported color space and
positive dimensions (and no 32-bit overflow in `width * bpp + 31`),
`rowSize()` is exactly the claim's padded-row formula
`((width * channelCount * 8 + 31) & ~31) >> 3`. -/
theorem create_rowSize_padded_formula (w h : Nat) (cs : ColorSpaceType)
    (hcs : cs ≠ ColorSpaceType.UNKNOWN) (hw : 0 < w) (hh : 0 < h)
    (h32 : w * ColorSpace.calculateNumberOfChannels cs * 8 + 31 < 4294967296) :
    (Image.emptyImage.create w h cs none).getRowSize =
      ((w * ColorSpace.calculateNumberOfChannels cs * 8 + 31) &&&
        4294967264) >>> 3 := by
  show Image.calculateRowSize w (Image.calculateBpp cs) = _
  unfold Image.calculateRowSize Image.calculateBpp U32
  rw [show w * (ColorSpace.calculateNumberOfChannels cs * 1 * 8) =
      w * ColorSpace.calculateNumberOfChannels cs * 8 by ring]
  rw [Nat.mod_eq_of_lt h32]

/-- Witness for C6 at the claim's concrete scenario:
`create(3, 1, RGB)` has row size 12 (9 data bytes + 3 padding bytes). -/
theorem create_rowSize_padded_formula_witness :
    (Image.emptyImage.create 3 1 .RGB none).getRowSize = 12 ∧
    3 * ColorSpace.calculateNumberOfChannels ColorSpaceType.RGB = 9 :=
  ⟨(create_rowSize_padded_formula 3 1 .RGB (by decide) (by decide)
      (by decide) (by decide)).trans (by decide),
   by decide⟩

/-- Claim C7: on a freshly created byte-channel image with a supported
color space, writing a valid pixel's channel values through the accessor
and reading them back through the same accessor is the identity, and the
write leaves the values readable at every other coordinate unchanged
(the accessor addresses `row*stride + col*channelCount`, and distinct
pixels occupy disjoint byte ranges).  The last two bounds say the 32-bit
products in `calculateRowSize` and in the allocation size do not wrap. -/
theorem pixel_roundtrip_and_independence
    (w h : Nat) (cs : ColorSpaceType) (r c r' c' : Nat) (vals : List Nat)
    (hcs : cs ≠ ColorSpaceType.UNKNOWN)
    (hr : r < h) (hc : c < w) (hr' : r' < h) (hc' : c' < w)
    (hlen : vals.length = ColorSpace.calculateNumberOfChannels cs)
    (h32 : w * ColorSpace.calculateNumberOfChannels cs * 8 + 31 < 4294967296)
    (hsz : Image.calculateRowSize w (Image.calculateBpp cs) * h < 4294967296) :
    ((Image.emptyImage.create w h cs none).writePixel r c vals).readPixel r c
        = vals ∧
    ((r', c') ≠ (r, c) →
      ((Image.emptyImage.create w h cs none).writePixel r c vals).readPixel r' c'
        = (Image.emptyImage.create w h cs none).readPixel r' c') := by
  have hbpp : Image.calculateBpp cs =
      ColorSpace.calculateNumberOfChannels cs * 8 := by
    unfold Image.calculateBpp
    rw [Nat.mul_one]
  set k := ColorSpace.calculateNumberOfChannels cs with hk
  set S := Image.calculateRowSize w (Image.calculateBpp cs) with hS
  set img := Image.emptyImage.create w h cs none with himg
  have hwkS : w * k ≤ S := by
    rw [hS, hbpp]
    exact le_calculateRowSize w k h32
  have hn : (S * h) % U32 = S * h := Nat.mod_eq_of_lt hsz
  have hdata : img.mData = some (List.replicate (S * h) 0) := by
    rw [himg]
    show some (List.replicate ((S * h) % U32) 0) =
      some (List.replicate (S * h) 0)
    rw [hn]
  have hrow : img.mRowSize = S := hS.symm
  have hch : img.mNumberOfChannels = k := hk.symm
  have hlenbuf : (List.replicate (S * h) 0).length = S * h :=
    List.length_replicate _ _
  have hbound : ∀ a b : Nat, a < h → b < w → a * S + b * k + k ≤ S * h := by
    intro a b ha hb
    have h1 : (b + 1) * k ≤ w * k := Nat.mul_le_mul_right k (by omega)
    have h2 : (a + 1) * S ≤ h * S := Nat.mul_le_mul_right S (by omega)
    calc a * S + b * k + k = a * S + (b + 1) * k := by ring
      _ ≤ a * S + w * k := by omega
      _ ≤ a * S + S := by omega
      _ = (a + 1) * S := by ring
      _ ≤ h * S := h2
      _ = S * h := Nat.mul_comm h S
  constructor
  · apply readPixel_writePixel_self img _ r c vals hdata
    · rw [hch]
      exact hlen
    · unfold Image.pixelIndex
      rw [hrow, hch, hlen, hlenbuf]
      exact hbound r c hr hc
  · intro hne
    have hne' : ¬(r' = r ∧ c' = c) := by
      rintro ⟨h1, h2⟩
      exact hne (by rw [h1, h2])
    apply readPixel_writePixel_frame img _ r c r' c' vals hdata
    unfold Image.pixelIndex
    rw [hrow, hch, hlen]
    exact pixel_ranges_disjoint S k w r c r' c' hwkS hc hc' hne'

/-- Witness for C7 at a concrete input: a 3x2 RGB image, writing
`[7, 8, 9]` at pixel (1, 2), reading it back there and checking pixel
(0, 0) is untouched. -/
theorem pixel_roundtrip_and_independence_witness :
    (([7, 8, 9] : List Nat).length =
      ColorSpace.calculateNumberOfChannels ColorSpaceType.RGB) ∧
    ((Image.emptyImage.create 3 2 .RGB none).writePixel 1 2 [7, 8, 9]).readPixel
        1 2 = [7, 8, 9] ∧
    ((Image.emptyImage.create 3 2 .RGB none).writePixel 1 2 [7, 8, 9]).readPixel
        0 0 = (Image.emptyImage.create 3 2 .RGB none).readPixel 0 0 :=
  ⟨by decide,
   (pixel_roundtrip_and_independence 3 2 .RGB 1 2 0 0 [7, 8, 9] (by decide)
      (by decide) (by decide) (by decide) (by decide) (by decide) (by decide)
      (by decide)).1,
   (pixel_roundtrip_and_independence 3 2 .RGB 1 2 0 0 [7, 8, 9] (by decide)
      (by decide) (by decide) (by decide) (by decide) (by decide) (by decide)
      (by decide)).2 (by decide)⟩

/-- Claim C8: when the file cannot be opened, `load` returns false and
returns the target buffer exactly as it was handed in (every field and
the data contents unchanged), having acquired no resources. -/
theorem load_unopenable_returns_false_buffer_unchanged
    (path : String) (img : Image) (env : JpegStream)
    (hopen : env.canOpen = false) :
    ImageFile.load path img env = (false, img, []) := by
  unfold ImageFile.load ImageFile.checkFileExtension ImageFile.loadJPEG
  by_cases hp : path = "" <;> simp [hp, hopen]

/-- Witness for C8 at a concrete input. -/
theorem load_unopenable_returns_false_buffer_unchanged_witness :
    ImageFile.load "missing.jpg" Image.emptyImage
        ⟨false, .JCS_RGB, 0, 0, []⟩ = (false, Image.emptyImage, []) :=
  load_unopenable_returns_false_buffer_unchanged "missing.jpg"
    Image.emptyImage ⟨false, .JCS_RGB, 0, 0, []⟩ rfl

/-- Claim C9: the empty path is classified `UNKNOWN` and both `load` and
`save` return false on it without invoking any codec (empty trace,
buffer untouched); every non-empty path is classified `JPEG` regardless
of suffix, `load` delegating to `loadJPEG` and `save` to `saveJPEG` with
the fixed quality level 100. -/
theorem load_save_dispatch
    (path : String) (img : Image) (envL : JpegStream) (envS : WriteEnv) :
    (path = "" →
      ImageFile.checkFileExtension path = ImageFile.Format.UNKNOWN ∧
      ImageFile.load path img envL = (false, img, []) ∧
      ImageFile.save path img envS = (false, [])) ∧
    (path ≠ "" →
      ImageFile.checkFileExtension path = ImageFile.Format.JPEG ∧
      ImageFile.load path img envL = ImageFile.loadJPEG path img envL ∧
      ImageFile.save path img envS = ImageFile.saveJPEG path img 100 envS) := by
  constructor
  · intro hp
    refine ⟨by simp [ImageFile.checkFileExtension, hp], ?_, ?_⟩ <;>
      simp [ImageFile.load, ImageFile.save, ImageFile.checkFileExtension, hp]
  · intro hp
    refine ⟨by simp [ImageFile.checkFileExtension, hp], ?_, ?_⟩ <;>
      simp [ImageFile.load, ImageFile.save, ImageFile.checkFileExtension, hp]

/-- Witness for C9 at concrete inputs: a non-empty path with a non-JPEG
suffix is still classified `JPEG`, and the empty path is `UNKNOWN`. -/
theorem load_save_dispatch_witness :
    ImageFile.checkFileExtension "picture.bmp" = ImageFile.Format.JPEG ∧
    ImageFile.checkFileExtension "" = ImageFile.Format.UNKNOWN :=
  ⟨((load_save_dispatch "picture.bmp" Image.emptyImage
      ⟨false, .JCS_RGB, 0, 0, []⟩ ⟨false⟩).2 (by decide)).1,
   ((load_save_dispatch "" Image.emptyImage
      ⟨false, .JCS_RGB, 0, 0, []⟩ ⟨false⟩).1 rfl).1⟩

/-- Claim C10: `create(width, height, Unknown)` with positive dimensions
reports the requested width and height but zero channels, zero bits per
pixel and zero row size, and allocates a zero-length data buffer — so
every pixel access reads no bytes at all (the buffer holds none). -/
theorem create_unknown_has_no_storage (w h : Nat) (hw : 0 < w) (hh : 0 < h) :
    (Image.emptyImage.create w h .UNKNOWN none).getWidth = w ∧
    (Image.emptyImage.create w h .UNKNOWN none).getHeight = h ∧
    (Image.emptyImage.create w h .UNKNOWN none).getNumberOfChannels = 0 ∧
    (Image.emptyImage.create w h .UNKNOWN none).mBpp = 0 ∧
    (Image.emptyImage.create w h .UNKNOWN none).getRowSize = 0 ∧
    Image.allocatedLength (Image.emptyImage.create w h .UNKNOWN none) = 0 ∧
    ∀ r c, (Image.emptyImage.create w h .UNKNOWN none).readPixel r c = [] := by
  have h1 : Image.calculateRowSize w 0 = 0 := by
    unfold Image.calculateRowSize
    rw [Nat.mul_zero]
    decide
  refine ⟨rfl, rfl, rfl, rfl, h1, ?_, ?_⟩
  · show (List.replicate
        ((Image.calculateRowSize w (Image.calculateBpp .UNKNOWN) * h) % U32)
        0).length = 0
    rw [List.length_replicate]
    have h2 : Image.calculateRowSize w (Image.calculateBpp .UNKNOWN) = 0 := h1
    rw [h2, Nat.zero_mul, Nat.zero_mod]
  · intro r c
    rfl

/-- Witness for C10 at a concrete input. -/
theorem create_unknown_has_no_storage_witness :
    (Image.emptyImage.create 1 1 .UNKNOWN none).getRowSize = 0 ∧
    Image.allocatedLength (Image.emptyImage.create 1 1 .UNKNOWN none) = 0 :=
  ⟨(create_unknown_has_no_storage 1 1 (by decide) (by decide)).2.2.2.2.1,
   (create_unknown_has_no_storage 1 1 (by decide) (by decide)).2.2.2.2.2.1⟩

end owl
